import Mathlib

/-!
Verification of the prompt-to-structured-result pipeline of the `jd` repository
(`src/gemini_client.py` and `src/main.py`) against its specification.

Python strings are modelled as `List Char` (Python strings are sequences of
unicode characters, with character-based indexing and slicing).  The external
network round trip (`genai.Client.models.generate_content`) and the standard
library JSON parser (`json.loads`) are external collaborators and appear as
function parameters; everything the repository itself computes is translated
directly from the source.
-/

set_option maxHeartbeats 1000000

/-- Python strings, as sequences of unicode characters. -/
abbrev Str := List Char

/- ### gemini_client.py -/

/-- Python `a or b` for an optional string value: the left operand when it is
truthy (present and non-empty), otherwise the right operand
(`gemini_client.py` lines 12-13). -/
def pyOr (a b : Option Str) : Option Str :=
  match a with
  | some s => if s = [] then b else some s
  | none => b

/-- Python truthiness of an optional string: present and non-empty. -/
def truthy : Option Str → Bool
  | some s => decide (s ≠ [])
  | none => false

/-- Message of the `GeminiError` raised by `GeminiClient.__init__` when no API
key resolves (`gemini_client.py` line 15). -/
def apiKeyErr : Str := ("GEMINI_API_KEY not set").toList

/-- Name of the credential environment variable read on line 12. -/
def keyEnvName : Str := ("GEMINI_API_KEY").toList

/-- Name of the model environment variable read on line 13. -/
def modelEnvName : Str := ("GEMINI_MODEL").toList

/-- Built-in default model identifier (`gemini_client.py` line 13). -/
def defaultModel : Str := ("gemini-2.5-flash").toList

/-- Configuration held by a successfully constructed `GeminiClient`. -/
structure GeminiClientCfg where
  api_key : Str
  model : Str

/-- `GeminiClient.__init__` (`gemini_client.py` lines 11-16).  `env` models
`os.environ.get`; `os.environ.get("GEMINI_MODEL", "gemini-2.5-flash")` is
`(env modelEnvName).getD defaultModel`.  The final `genai.Client(...)`
construction is an external collaborator with no observable effect on the
resolved configuration. -/
def geminiInit (api_key model : Option Str) (env : Str → Option Str) :
    Except Str GeminiClientCfg :=
  let key := pyOr api_key (env keyEnvName)
  let mdl := pyOr model (some ((env modelEnvName).getD defaultModel))
  match key with
  | none => .error apiKeyErr
  | some s => if s = [] then .error apiKeyErr else .ok ⟨s, mdl.getD defaultModel⟩

/-- Python `text.find(c)` for a single character: index of the first
occurrence, `none` standing for `-1`. -/
def strFind (c : Char) : Str → Option Nat
  | [] => none
  | a :: as => if a = c then some 0 else (strFind c as).map (· + 1)

/-- Python `text.rfind(c)` for a single character: index of the last
occurrence, `none` standing for `-1`. -/
def strRFind (c : Char) : Str → Option Nat
  | [] => none
  | a :: as =>
    match strRFind c as with
    | some k => some (k + 1)
    | none => if a = c then some 0 else none

/-- Message of the `GeminiError` raised when the response text holds no brace
pair (`gemini_client.py` line 31). -/
def noJsonMsg : Str := ("No JSON object found in model output.").toList

/-- Message of the `GeminiError` raised on a JSON parse failure:
`f"JSON parse error: \x7be\x7d\nRaw text: \x7btext[:1000]\x7d"`
(`gemini_client.py` line 36). -/
def malformedMsg (parseMsg rawPrefix : Str) : Str :=
  ("JSON parse error: ").toList ++ parseMsg ++ ("\nRaw text: ").toList ++ rawPrefix

/-- Lines 28-37 of `gemini_client.py`: the pure extraction performed by
`GeminiClient.generate_json` on the response text.  `parse` abstracts the
standard library `json.loads`, returning either the parsed value or the
parser's exception message.  `text[start:end+1]` is character slicing, empty
when `end + 1 ≤ start`. -/
def extract_json {J : Type} (parse : Str → Except Str J) (text : Str) :
    Except Str J :=
  match strFind '{' text, strRFind '}' text with
  | some s, some e =>
    match parse ((text.drop s).take (e + 1 - s)) with
    | .ok d => .ok d
    | .error msg => .error (malformedMsg msg (text.take 1000))
  | _, _ => .error noJsonMsg

/-- `GeminiClient.generate_json` (`gemini_client.py` lines 26-37): one call to
the external service (`net` abstracts `generate_text`) followed by extraction. -/
def generate_json {J : Type} (net : Str → Str) (parse : Str → Except Str J)
    (prompt : Str) : Except Str J :=
  extract_json parse (net prompt)

/- Concrete instances used to evaluate the development on closed inputs. -/

/-- Tiny stand-in for `json.loads`: accepts exactly the text `\x7b\x7d` and
yields the value `5`; any other text (the empty string included) is a parse
error. -/
def toyParse : Str → Except Str Nat :=
  fun s => if s = '{' :: ['}'] then .ok 5 else .error (("bad").toList)

/-- Tiny JSON encoder paired with `toyParse`. -/
def toyEncode : Nat → Str :=
  fun _ => '{' :: ['}']

example : extract_json toyParse (("no braces here").toList) = .error noJsonMsg := rfl

example : extract_json toyParse (("ab").toList ++ toyEncode 5 ++ ("cd").toList) = .ok 5 := rfl

/- ### main.py: request shapes (the pydantic models, lines 32-50) -/

/-- `ChannelConfig` (`main.py` lines 32-36). -/
structure ChannelConfig where
  channel : Str
  style : Str
  candidate_profile : Str
  language : Str := ("PL").toList

/-- `GenerateRequest` (`main.py` lines 38-40). -/
structure GenerateRequest where
  job_title : Str
  channels : List ChannelConfig

/-- `TestRequest` (`main.py` lines 42-44). -/
structure TestRequest where
  job_title : Str
  candidate_profile : Str

/-- `TestAnswersRequest` (`main.py` lines 46-50). -/
structure TestAnswersRequest where
  job_title : Str
  candidate_profile : Str
  questions : List Str
  answers : List Str

/-- `fastapi.HTTPException`, as raised by the endpoints: a status code and a
detail string. -/
structure HTTPException where
  status : Nat
  detail : Str

/- ### main.py: prompt builders (lines 61-154) -/

/-- `build_prompt` (`main.py` lines 61-95): the job-post f-string template with
the five parameters interpolated.  `\x7b\x7b` / `\x7d\x7d` in the Python
source are literal braces, written `\x7b` / `\x7d` here. -/
def build_prompt (job_title channel style candidate_profile language : Str) : Str :=
  ("\nYou are an HR copywriting assistant. Produce only valid JSON that matches the following template:\n\x7b\n  \"job_title\": \"").toList
  ++ job_title
  ++ ("\",\n  \"channel\": \"").toList
  ++ channel
  ++ ("\",\n  \"style\": \"").toList
  ++ style
  ++ ("\",\n  \"candidate_profile\": \"").toList
  ++ candidate_profile
  ++ ("\",\n  \"language\": \"").toList
  ++ language
  ++ ("\",\n  \"sections\": \x7b\n    \"headline\": \"...\",\n    \"subheadline\": \"...\",\n    \"intro\": \"...\",\n    \"responsibilities\": [\"...\"],\n    \"requirements\": [\"...\"],\n    \"nice_to_have\": [\"...\"],\n    \"offer\": [\"...\"],\n    \"why_us\": \"...\"\n  \x7d\n\x7d\n\nRules:\n- Output valid JSON only, no explanation.\n- Tone/length must match channel:\n  - social: punchy, emojis ok, shorter.\n  - pracujpl: formal, bullet-style.\n  - olx: short, direct, practical.\n- style decides emphasis:\n  - classic: responsibilities & requirements focus.\n  - lifestyle: team, culture, flexibility.\n  - growth: mentoring, learning, projects.\n- candidate_profile modifies wording (students -> emphasize learning; experienced -> ownership; returners -> re-onboarding support).\n- Keep each list of responsibilities/requirements to 3-6 items.\n- Use Polish language unless language param says otherwise.\n").toList

/-- `build_test_prompt` (`main.py` lines 101-122). -/
def build_test_prompt (job_title candidate_profile : Str) : Str :=
  ("\nYou are an HR assessment specialist. Generate exactly 5 technical/behavioral questions for a ").toList
  ++ job_title
  ++ (" position targeting ").toList
  ++ candidate_profile
  ++ (" candidates.\n\nOutput ONLY valid JSON in this format:\n\x7b\n  \"questions\": [\n    \"Question 1 text here?\",\n    \"Question 2 text here?\",\n    \"Question 3 text here?\",\n    \"Question 4 text here?\",\n    \"Question 5 text here?\"\n  ]\n\x7d\n\nRules:\n- Exactly 5 questions\n- Mix of technical and behavioral questions\n- Appropriate difficulty for ").toList
  ++ candidate_profile
  ++ (" level\n- Questions should assess key competencies for ").toList
  ++ job_title
  ++ ("\n- Use Polish language\n").toList

/-- One element of the `qa_pairs` comprehension in `build_scoring_prompt`
(`main.py` line 125): `f"Q\x7bi+1\x7d: \x7bq\x7d\nA\x7bi+1\x7d: \x7ba\x7d\n"`. -/
def qaPair (i : Nat) (q a : Str) : Str :=
  ("Q").toList ++ (toString (i + 1)).toList ++ (": ").toList ++ q
  ++ ("\nA").toList ++ (toString (i + 1)).toList ++ (": ").toList ++ a ++ ("\n").toList

/-- `qa_pairs` (`main.py` line 125): `"\n".join(...)` over the enumerated
`zip(questions, answers)`. -/
def qaPairs (questions answers : List Str) : Str :=
  List.intercalate (("\n").toList)
    (((List.zip questions answers).enum).map (fun x => qaPair x.1 x.2.1 x.2.2))

/-- `build_scoring_prompt` (`main.py` lines 124-154). -/
def build_scoring_prompt (job_title candidate_profile : Str)
    (questions answers : List Str) : Str :=
  ("\nYou are an HR assessment specialist evaluating a candidate for ").toList
  ++ job_title
  ++ (" position (").toList
  ++ candidate_profile
  ++ (" level).\n\nQuestions and Answers:\n").toList
  ++ qaPairs questions answers
  ++ ("\n\nEvaluate each answer and provide scores. Output ONLY valid JSON in this format:\n\x7b\n  \"scores\": [\n    \x7b\"question\": 1, \"score\": 4, \"feedback\": \"Brief feedback\"\x7d,\n    \x7b\"question\": 2, \"score\": 3, \"feedback\": \"Brief feedback\"\x7d,\n    \x7b\"question\": 3, \"score\": 5, \"feedback\": \"Brief feedback\"\x7d,\n    \x7b\"question\": 4, \"score\": 2, \"feedback\": \"Brief feedback\"\x7d,\n    \x7b\"question\": 5, \"score\": 4, \"feedback\": \"Brief feedback\"\x7d\n  ],\n  \"overall_score\": 3.6,\n  \"grade\": \"B\",\n  \"summary\": \"Overall assessment summary here\"\n\x7d\n\nRules:\n- Score each answer 1-5 (1=poor, 5=excellent)\n- Provide brief feedback for each\n- Calculate overall_score as average\n- Assign grade: A (4.5-5), B (3.5-4.4), C (2.5-3.4), D (1.5-2.4), F (1-1.4)\n- Provide 2-3 sentence summary\n- Use Polish language\n").toList

/- ### main.py: cache and orchestrator (lines 52-58, 932-984) -/

/-- Association-list read, modelling `CACHE[key]` / `key in CACHE` and the
read of the `results` dict. -/
def lookupA {α : Type} (k : Str) : List (Str × α) → Option α
  | [] => none
  | e :: rest => if e.1 = k then some e.2 else lookupA k rest

/-- Python dict assignment `d[k] = v`: replace the entry in place when the key
is present (CPython keeps the original position), append otherwise. -/
def insertOv {α : Type} (k : Str) (v : α) : List (Str × α) → List (Str × α)
  | [] => [(k, v)]
  | e :: rest => if e.1 = k then (k, v) :: rest else e :: insertOv k v rest

/-- Observable mutable state of the orchestrator: the module-level `CACHE`
dict, plus an instrumentation counter of `gemini.generate_json` invocations
(the call-count instrumentation the specification's test plan prescribes for a
fake client).  `save_cache` only mirrors `CACHE` to disk and has no further
observable effect. -/
structure OrchState (J : Type) where
  cache : List (Str × J)
  calls : Nat

/-- The cache key derived on `main.py` line 936:
`f"\x7bpayload.job_title\x7d_\x7bcfg.channel\x7d_\x7bcfg.style\x7d_\x7bcfg.candidate_profile\x7d_\x7bcfg.language\x7d"`. -/
def cache_key (job_title : Str) (cfg : ChannelConfig) : Str :=
  job_title ++ ('_' :: (cfg.channel ++ ('_' :: (cfg.style
    ++ ('_' :: (cfg.candidate_profile ++ ('_' :: cfg.language)))))))

/-- Detail string of the 502 `HTTPException`: `f"Gemini error: \x7bstr(e)\x7d"`
(`main.py` lines 950, 969, 983). -/
def gemErrDetail (msg : Str) : Str := ("Gemini error: ").toList ++ msg

/-- One iteration of the per-channel loop in `generate` (`main.py` lines
935-953): derive the cache key; on a hit return the cached value unchanged; on
a miss build the prompt, invoke `gemini.generate_json` (abstracted by
`client`, which bumps the call counter), raise 502 on `GeminiError`, store and
persist on success. -/
def genStep {J : Type} (client : Str → Except Str J) (job_title : Str)
    (cfg : ChannelConfig) (st : OrchState J) : Except HTTPException J × OrchState J :=
  match lookupA (cache_key job_title cfg) st.cache with
  | some v => (.ok v, st)
  | none =>
    match client (build_prompt job_title cfg.channel cfg.style cfg.candidate_profile cfg.language) with
    | .error e => (.error ⟨502, gemErrDetail e⟩, ⟨st.cache, st.calls + 1⟩)
    | .ok v => (.ok v, ⟨insertOv (cache_key job_title cfg) v st.cache, st.calls + 1⟩)

/-- The `for cfg in payload.channels` loop of `generate` (`main.py` lines
935-959), accumulating `results[cfg.channel] = \x7b"json": ..., "html": ...\x7d`;
`render` abstracts `template.render`.  An `HTTPException` aborts the whole
request, leaving the cache mutations of the already-processed channels in
place. -/
def genLoop {J : Type} (client : Str → Except Str J) (render : J → Str)
    (job_title : Str) :
    List ChannelConfig → List (Str × (J × Str)) → OrchState J →
    Except HTTPException (List (Str × (J × Str))) × OrchState J
  | [], results, st => (.ok results, st)
  | cfg :: rest, results, st =>
    match genStep client job_title cfg st with
    | (.error e, st') => (.error e, st')
    | (.ok v, st') =>
      genLoop client render job_title rest (insertOv cfg.channel (v, render v) results) st'

/-- `POST /generate` (`main.py` lines 932-960). -/
def generate {J : Type} (client : Str → Except Str J) (render : J → Str)
    (payload : GenerateRequest) (st : OrchState J) :
    Except HTTPException (List (Str × (J × Str))) × OrchState J :=
  genLoop client render payload.job_title payload.channels [] st

/-- `POST /generate-test` (`main.py` lines 962-969): build the prompt, invoke
the client (no cache involvement), return the data or raise 502. -/
def generate_test {J : Type} (client : Str → Except Str J) (payload : TestRequest)
    (st : OrchState J) : Except HTTPException J × OrchState J :=
  match client (build_test_prompt payload.job_title payload.candidate_profile) with
  | .ok d => (.ok d, ⟨st.cache, st.calls + 1⟩)
  | .error e => (.error ⟨502, gemErrDetail e⟩, ⟨st.cache, st.calls + 1⟩)

/-- `POST /score-test` (`main.py` lines 971-984): build the scoring prompt,
invoke the client (no cache involvement, no request validation), return the
data or raise 502. -/
def score_test {J : Type} (client : Str → Except Str J) (payload : TestAnswersRequest)
    (st : OrchState J) : Except HTTPException J × OrchState J :=
  match client (build_scoring_prompt payload.job_title payload.candidate_profile
      payload.questions payload.answers) with
  | .ok d => (.ok d, ⟨st.cache, st.calls + 1⟩)
  | .error e => (.error ⟨502, gemErrDetail e⟩, ⟨st.cache, st.calls + 1⟩)

/- ### Concrete values used in closed-form evaluations -/

/-- Fake client that always succeeds with a fixed value. -/
def constClient (j : Nat) : Str → Except Str Nat := fun _ => .ok j

/-- Fake client that always fails. -/
def failClient : Str → Except Str Nat := fun _ => .error (("boom").toList)

/-- Trivial renderer standing in for `template.render`. -/
def noRender : Nat → Str := fun _ => []

/-- Number of entries of an association list holding a given key. -/
def countKey {α : Type} (n : Str) : List (Str × α) → Nat
  | [] => 0
  | e :: rest => (if e.1 = n then 1 else 0) + countKey n rest

/- ### Helper lemmas: string search -/

theorem strFind_eq_none {c : Char} {l : Str} (h : c ∉ l) : strFind c l = none := by
  induction l with
  | nil => rfl
  | cons a as ih =>
    simp only [List.mem_cons, not_or] at h
    simp [strFind, Ne.symm h.1, ih h.2]

theorem strRFind_eq_none {c : Char} {l : Str} (h : c ∉ l) : strRFind c l = none := by
  induction l with
  | nil => rfl
  | cons a as ih =>
    simp only [List.mem_cons, not_or] at h
    simp [strRFind, Ne.symm h.1, ih h.2]

theorem strFind_append_cons (c : Char) (pre rest : Str) (h : c ∉ pre) :
    strFind c (pre ++ c :: rest) = some pre.length := by
  induction pre with
  | nil => simp [strFind]
  | cons a as ih =>
    simp only [List.mem_cons, not_or] at h
    simp [strFind, Ne.symm h.1, ih h.2]

theorem strRFind_append_right {c : Char} (l : Str) {suf : Str} (h : c ∉ suf) :
    strRFind c (l ++ suf) = strRFind c l := by
  induction l with
  | nil => simpa [strRFind] using strRFind_eq_none h
  | cons a as ih => simp [strRFind, ih]

theorem strRFind_concat (c : Char) (l : Str) : strRFind c (l ++ [c]) = some l.length := by
  induction l with
  | nil => simp [strRFind]
  | cons a as ih => simp [strRFind, ih]

theorem malformedMsg_ne_noJsonMsg (e p : Str) : malformedMsg e p ≠ noJsonMsg := by
  intro h
  unfold malformedMsg at h
  rw [show (("JSON parse error: ").toList : Str) = 'J' :: ("SON parse error: ").toList from rfl] at h
  rw [show (noJsonMsg : Str) = 'N' :: ("o JSON object found in model output.").toList from rfl] at h
  simp at h

/- ### Helper lemmas: association lists -/

theorem lookupA_insertOv_self {α : Type} (k : Str) (v : α) (l : List (Str × α)) :
    lookupA k (insertOv k v l) = some v := by
  induction l with
  | nil => simp [insertOv, lookupA]
  | cons e rest ih =>
    by_cases h : e.1 = k
    · simp [insertOv, h, lookupA]
    · simp [insertOv, h, lookupA, ih]

theorem lookupA_insertOv_ne {α : Type} {k k' : Str} (h : k' ≠ k) (v : α)
    (l : List (Str × α)) : lookupA k' (insertOv k v l) = lookupA k' l := by
  induction l with
  | nil => simp [insertOv, lookupA, Ne.symm h]
  | cons e rest ih =>
    by_cases he : e.1 = k
    · simp [insertOv, he, lookupA, Ne.symm h, ih]
    · simp [insertOv, he, lookupA, ih]

theorem countKey_insertOv_self {α : Type} (k : Str) (v : α) (l : List (Str × α)) :
    countKey k (insertOv k v l) = max (countKey k l) 1 := by
  induction l with
  | nil => simp [insertOv, countKey]
  | cons e rest ih =>
    by_cases h : e.1 = k
    · simp only [insertOv, h, if_pos, countKey, if_pos rfl]
      omega
    · simp only [insertOv, h, if_neg, ite_false, countKey, if_neg h, ih]
      omega

theorem countKey_insertOv_ne {α : Type} {n k : Str} (h : n ≠ k) (v : α)
    (l : List (Str × α)) : countKey n (insertOv k v l) = countKey n l := by
  induction l with
  | nil => simp [insertOv, countKey, Ne.symm h]
  | cons e rest ih =>
    by_cases he : e.1 = k
    · simp [insertOv, he, countKey, Ne.symm h, ih]
    · simp [insertOv, he, countKey, ih]

theorem zip_take_min {α β : Type} (q : List α) (a : List β) :
    List.zip q a
      = List.zip (q.take (min q.length a.length)) (a.take (min q.length a.length)) := by
  induction q generalizing a with
  | nil => simp
  | cons x q ih =>
    cases a with
    | nil => simp
    | cons y a =>
      simp only [List.length_cons, Nat.succ_min_succ, List.take_succ_cons,
        List.zip_cons_cons]
      rw [← ih a]

/- ### Helper lemmas: the channel loop of `generate` -/

theorem genStep_ok {J : Type} {client : Str → Except Str J} {jt : Str}
    {cfg : ChannelConfig} {st st' : OrchState J} {v : J}
    (h : genStep client jt cfg st = (.ok v, st')) :
    (∀ k w, lookupA k st.cache = some w → lookupA k st'.cache = some w) ∧
    st'.calls ≤ st.calls + 1 ∧
    lookupA (cache_key jt cfg) st'.cache = some v := by
  unfold genStep at h
  cases hl : lookupA (cache_key jt cfg) st.cache with
  | some w =>
    rw [hl] at h
    simp only [Prod.mk.injEq, Except.ok.injEq] at h
    obtain ⟨hv, hst⟩ := h
    subst hv; subst hst
    exact ⟨fun k w hw => hw, Nat.le_succ _, hl⟩
  | none =>
    rw [hl] at h
    cases hc : client (build_prompt jt cfg.channel cfg.style cfg.candidate_profile cfg.language) with
    | error e => rw [hc] at h; simp at h
    | ok w =>
      rw [hc] at h
      simp only [Prod.mk.injEq, Except.ok.injEq] at h
      obtain ⟨hv, hst⟩ := h
      subst hv
      rw [← hst]
      refine ⟨fun k w' hw => ?_, Nat.le_refl _, lookupA_insertOv_self _ _ _⟩
      have hk : k ≠ cache_key jt cfg := by
        intro hk; rw [hk, hl] at hw; exact Option.noConfusion hw
      rw [lookupA_insertOv_ne hk]
      exact hw

theorem genStep_hit {J : Type} (client : Str → Except Str J) (jt : Str)
    (cfg : ChannelConfig) (st : OrchState J) (v : J)
    (h : lookupA (cache_key jt cfg) st.cache = some v) :
    genStep client jt cfg st = (.ok v, st) := by
  unfold genStep
  rw [h]

theorem genLoop_rerun {J : Type} (client : Str → Except Str J) (render : J → Str)
    (jt : Str) :
    ∀ (cs : List ChannelConfig) (res : List (Str × (J × Str))) (st : OrchState J)
      (r : List (Str × (J × Str))) (stF : OrchState J),
    genLoop client render jt cs res st = (.ok r, stF) →
    (∀ k w, lookupA k st.cache = some w → lookupA k stF.cache = some w) ∧
    stF.calls ≤ st.calls + cs.length ∧
    genLoop client render jt cs res stF = (.ok r, stF) := by
  intro cs
  induction cs with
  | nil =>
    intro res st r stF h
    simp only [genLoop, Prod.mk.injEq, Except.ok.injEq] at h
    obtain ⟨hr, hst⟩ := h
    subst hr; subst hst
    exact ⟨fun k w hw => hw, Nat.le_refl _, rfl⟩
  | cons cfg rest ih =>
    intro res st r stF h
    simp only [genLoop] at h ⊢
    cases hstep : genStep client jt cfg st with
    | mk fst st1 =>
      rw [hstep] at h
      cases fst with
      | error e => simp at h
      | ok v =>
        simp only at h
        obtain ⟨hext, hcalls, hrerun⟩ := ih _ _ _ _ h
        obtain ⟨hext1, hcalls1, hkey1⟩ := genStep_ok hstep
        refine ⟨fun k w hw => hext k w (hext1 k w hw), by simp only [List.length_cons]; omega, ?_⟩
        rw [genStep_hit client jt cfg stF v (hext _ _ hkey1)]
        exact hrerun

theorem genLoop_append {J : Type} (client : Str → Except Str J) (render : J → Str)
    (jt : Str) (xs ys : List ChannelConfig) :
    ∀ (res : List (Str × (J × Str))) (st : OrchState J),
    genLoop client render jt (xs ++ ys) res st =
      match genLoop client render jt xs res st with
      | (.ok r, st') => genLoop client render jt ys r st'
      | (.error e, st') => (.error e, st') := by
  induction xs with
  | nil => intro res st; simp [genLoop]
  | cons cfg rest ih =>
    intro res st
    simp only [List.cons_append, genLoop]
    rcases hstep : genStep client jt cfg st with ⟨fst, st'⟩
    cases fst with
    | error e => simp
    | ok v => simp [ih]

theorem genLoop_keysOk {J : Type} (client : Str → Except Str J) (render : J → Str)
    (jt : Str) :
    ∀ (cs : List ChannelConfig) (res : List (Str × (J × Str))) (st : OrchState J)
      (r : List (Str × (J × Str))) (stF : OrchState J),
    genLoop client render jt cs res st = (.ok r, stF) →
    (∀ n, countKey n res ≤ 1) → (∀ n, countKey n r ≤ 1) := by
  intro cs
  induction cs with
  | nil =>
    intro res st r stF h hres
    simp only [genLoop, Prod.mk.injEq, Except.ok.injEq] at h
    obtain ⟨hr, _⟩ := h
    subst hr; exact hres
  | cons cfg rest ih =>
    intro res st r stF h hres
    simp only [genLoop] at h
    rcases hstep : genStep client jt cfg st with ⟨fst, st1⟩
    rw [hstep] at h
    cases fst with
    | error e => simp at h
    | ok v =>
      simp only at h
      apply ih _ _ _ _ h
      intro n
      by_cases hn : n = cfg.channel
      · rw [hn, countKey_insertOv_self]
        have := hres cfg.channel
        omega
      · rw [countKey_insertOv_ne hn]
        exact hres n

theorem genLoop_untouched {J : Type} (client : Str → Except Str J) (render : J → Str)
    (jt : Str) :
    ∀ (cs : List ChannelConfig) (res : List (Str × (J × Str))) (st : OrchState J)
      (r : List (Str × (J × Str))) (stF : OrchState J) (n : Str),
    (∀ cfg ∈ cs, cfg.channel ≠ n) →
    genLoop client render jt cs res st = (.ok r, stF) →
    lookupA n r = lookupA n res ∧ countKey n r = countKey n res := by
  intro cs
  induction cs with
  | nil =>
    intro res st r stF n _ h
    simp only [genLoop, Prod.mk.injEq, Except.ok.injEq] at h
    obtain ⟨hr, _⟩ := h
    subst hr; exact ⟨rfl, rfl⟩
  | cons cfg rest ih =>
    intro res st r stF n hnames h
    simp only [genLoop] at h
    rcases hstep : genStep client jt cfg st with ⟨fst, st1⟩
    rw [hstep] at h
    cases fst with
    | error e => simp at h
    | ok v =>
      simp only at h
      have hne : n ≠ cfg.channel := Ne.symm (hnames cfg (List.mem_cons_self cfg rest))
      obtain ⟨h1, h2⟩ := ih _ _ _ _ n (fun c hc => hnames c (List.mem_cons_of_mem cfg hc)) h
      rw [h1, h2, lookupA_insertOv_ne hne, countKey_insertOv_ne hne]
      exact ⟨rfl, rfl⟩

theorem extract_json_eq_found {J : Type} (parse : Str → Except Str J) (text : Str)
    {i j : Nat} (hi : strFind '{' text = some i) (hj : strRFind '}' text = some j) :
    extract_json parse text =
      match parse ((text.drop i).take (j + 1 - i)) with
      | .ok d => .ok d
      | .error msg => .error (malformedMsg msg (text.take 1000)) := by
  unfold extract_json
  rw [hi, hj]

theorem build_scoring_prompt_take (jt cp : Str) (q a : List Str) :
    build_scoring_prompt jt cp q a
      = build_scoring_prompt jt cp (q.take (min q.length a.length))
          (a.take (min q.length a.length)) := by
  unfold build_scoring_prompt qaPairs
  rw [zip_take_min q a]

theorem geminiInit_ok_shape (ak m : Option Str) (env : Str → Option Str)
    (cfg : GeminiClientCfg) (h : geminiInit ak m env = .ok cfg) :
    ∃ s, pyOr ak (env keyEnvName) = some s ∧ s ≠ [] ∧
      cfg = ⟨s, (pyOr m (some ((env modelEnvName).getD defaultModel))).getD defaultModel⟩ := by
  simp only [geminiInit] at h
  cases hk : pyOr ak (env keyEnvName) with
  | none => rw [hk] at h; exact absurd h (by simp)
  | some s =>
    rw [hk] at h
    have h' : (if s = [] then (.error apiKeyErr : Except Str GeminiClientCfg)
        else .ok ⟨s, (pyOr m (some ((env modelEnvName).getD defaultModel))).getD
          defaultModel⟩) = .ok cfg := h
    by_cases hs : s = []
    · rw [if_pos hs] at h'; simp at h'
    · rw [if_neg hs] at h'
      simp only [Except.ok.injEq] at h'
      exact ⟨s, rfl, hs, h'.symm⟩

theorem geminiInit_ok_of_key (ak m : Option Str) (env : Str → Option Str) (s : Str)
    (hk : pyOr ak (env keyEnvName) = some s) (hs : s ≠ []) :
    geminiInit ak m env
      = .ok ⟨s, (pyOr m (some ((env modelEnvName).getD defaultModel))).getD defaultModel⟩ := by
  simp only [geminiInit]
  rw [hk]
  show (if s = [] then (.error apiKeyErr : Except Str GeminiClientCfg)
      else .ok ⟨s, (pyOr m (some ((env modelEnvName).getD defaultModel))).getD
        defaultModel⟩) = _
  rw [if_neg hs]

theorem geminiInit_error_of_key (ak m : Option Str) (env : Str → Option Str)
    (hk : pyOr ak (env keyEnvName) = none ∨ pyOr ak (env keyEnvName) = some []) :
    geminiInit ak m env = .error apiKeyErr := by
  simp only [geminiInit]
  cases hk with
  | inl hk => rw [hk]
  | inr hk => rw [hk]; rfl

/- ### Claim theorems -/

/-- C3: for every input text, extraction fails with the `NoJsonFound` message
when the text holds no `\x7b` or no `\x7d`; it fails with the `MalformedJson`
message — carrying the parser's message and at most the first 1000 characters
of the original text — when the first-brace-to-last-brace span does not parse;
and the two failure messages are always distinguishable from each other. -/
theorem C3_extract_failure_modes {J : Type} (parse : Str → Except Str J) (text : Str) :
    ((('{' ∉ text) ∨ ('}' ∉ text)) → extract_json parse text = .error noJsonMsg) ∧
    (∀ i j e, strFind '{' text = some i → strRFind '}' text = some j →
      parse ((text.drop i).take (j + 1 - i)) = .error e →
      extract_json parse text = .error (malformedMsg e (text.take 1000)) ∧
      (text.take 1000).length ≤ 1000 ∧
      text.take 1000 ++ text.drop 1000 = text) ∧
    (∀ e p, malformedMsg e p ≠ noJsonMsg) := by
  refine ⟨?_, ?_, malformedMsg_ne_noJsonMsg⟩
  · intro h
    unfold extract_json
    cases h with
    | inl h =>
      rw [strFind_eq_none h]
    | inr h =>
      rw [strRFind_eq_none h]
      cases hf : strFind '{' text <;> rfl
  · intro i j e hi hj hp
    refine ⟨?_, ?_, List.take_append_drop 1000 text⟩
    · rw [extract_json_eq_found parse text hi hj, hp]
    · rw [List.length_take]
      exact min_le_left _ _

/-- Witness for C3: the two failure modes observed on closed inputs.  In
`x\x7bnot valid json\x7dy` the braces sit at indices 1 and 16 and the span
fails to parse. -/
theorem C3_witness :
    extract_json toyParse (("no braces here").toList) = .error noJsonMsg ∧
    extract_json toyParse (("x\x7bnot valid json\x7dy").toList)
      = .error (malformedMsg (("bad").toList) ((("x\x7bnot valid json\x7dy").toList).take 1000)) := by
  constructor
  · exact (C3_extract_failure_modes toyParse _).1 (Or.inl (by decide))
  · exact ((C3_extract_failure_modes toyParse (("x\x7bnot valid json\x7dy").toList)).2.1
      1 16 (("bad").toList) rfl rfl rfl).1

/-- C4: for every value `obj` whose encoding is a brace-delimited JSON object
round-tripped by the parser, and all prefix/suffix strings free of `\x7b` and
`\x7d`, extraction applied to `prefix ++ encode obj ++ suffix` succeeds and
returns exactly `obj` — the surrounding prose is discarded. -/
theorem C4_extraction_roundtrip {J : Type} (parse : Str → Except Str J)
    (encode : J → Str) (obj : J) (pre suf mid : Str)
    (henc : encode obj = '{' :: mid ++ ['}'])
    (hpre1 : '{' ∉ pre) (hpre2 : '}' ∉ pre) (hsuf1 : '{' ∉ suf) (hsuf2 : '}' ∉ suf)
    (hparse : parse (encode obj) = .ok obj) :
    extract_json parse (pre ++ encode obj ++ suf) = .ok obj := by
  rw [henc] at hparse ⊢
  have hfind : strFind '{' (pre ++ ('{' :: mid ++ ['}']) ++ suf) = some pre.length := by
    have h := strFind_append_cons '{' pre (mid ++ ['}'] ++ suf) hpre1
    rw [List.append_assoc]
    simpa [List.cons_append, List.append_assoc] using h
  have hrfind : strRFind '}' (pre ++ ('{' :: mid ++ ['}']) ++ suf)
      = some (pre.length + (mid.length + 1)) := by
    rw [strRFind_append_right _ hsuf2]
    have h := strRFind_concat '}' (pre ++ '{' :: mid)
    simpa [List.cons_append, List.append_assoc, List.length_append] using h
  rw [extract_json_eq_found parse _ hfind hrfind]
  have hdrop : (pre ++ ('{' :: mid ++ ['}']) ++ suf).drop pre.length
      = ('{' :: mid ++ ['}']) ++ suf := by
    rw [List.append_assoc]
    exact List.drop_left pre _
  have hlen : pre.length + (mid.length + 1) + 1 - pre.length
      = ('{' :: mid ++ ['}']).length := by
    simp [List.length_cons, List.length_append]
    omega
  rw [hdrop, hlen, List.take_left, hparse]

/-- Witness for C4: prose around the encoded object is discarded. -/
theorem C4_witness :
    extract_json toyParse (("Sure! ").toList ++ toyEncode 5 ++ (" Thanks.").toList)
      = .ok 5 :=
  C4_extraction_roundtrip toyParse toyEncode 5 (("Sure! ").toList)
    ((" Thanks.").toList) [] rfl (by decide) (by decide) (by decide) (by decide) rfl

/-- C10: when both braces are present but the last `\x7d` sits strictly before
the first `\x7b`, extraction does not report `NoJsonFound`: it parses the
empty span and fails with the `MalformedJson`-style message. -/
theorem C10_reversed_span {J : Type} (parse : Str → Except Str J) (text : Str)
    (i j : Nat) (e : Str)
    (hi : strFind '{' text = some i) (hj : strRFind '}' text = some j)
    (hij : j < i) (hparse : parse [] = .error e) :
    extract_json parse text = .error (malformedMsg e (text.take 1000)) ∧
    extract_json parse text ≠ .error noJsonMsg := by
  have hzero : j + 1 - i = 0 := by omega
  have h1 : extract_json parse text = .error (malformedMsg e (text.take 1000)) := by
    rw [extract_json_eq_found parse text hi hj, hzero]
    simp only [List.take_zero]
    rw [hparse]
  refine ⟨h1, ?_⟩
  rw [h1]
  intro hc
  injection hc with hmsg
  exact malformedMsg_ne_noJsonMsg e _ hmsg

/-- Witness for C10 on the text `\x7d \x7b`. -/
theorem C10_witness :
    extract_json toyParse (("\x7d \x7b").toList)
      = .error (malformedMsg (("bad").toList) ((("\x7d \x7b").toList).take 1000)) ∧
    extract_json toyParse (("\x7d \x7b").toList) ≠ .error noJsonMsg :=
  C10_reversed_span toyParse (("\x7d \x7b").toList) 2 0 (("bad").toList)
    rfl rfl (by decide) rfl

/-- C5: cache-key derivation (`main.py` line 936) is a pure total function of
the request parameters: requests with equal parameters share a key, and two
requests differing in exactly one of the five fields derive different keys. -/
theorem C5_cache_key_deterministic_and_injective :
    (∀ (jt jt' : Str) (cfg cfg' : ChannelConfig), jt = jt' → cfg = cfg' →
      cache_key jt cfg = cache_key jt' cfg') ∧
    (∀ (jt jt' : Str) (cfg cfg' : ChannelConfig),
      ((jt ≠ jt' ∧ cfg.channel = cfg'.channel ∧ cfg.style = cfg'.style ∧
        cfg.candidate_profile = cfg'.candidate_profile ∧ cfg.language = cfg'.language) ∨
       (jt = jt' ∧ cfg.channel ≠ cfg'.channel ∧ cfg.style = cfg'.style ∧
        cfg.candidate_profile = cfg'.candidate_profile ∧ cfg.language = cfg'.language) ∨
       (jt = jt' ∧ cfg.channel = cfg'.channel ∧ cfg.style ≠ cfg'.style ∧
        cfg.candidate_profile = cfg'.candidate_profile ∧ cfg.language = cfg'.language) ∨
       (jt = jt' ∧ cfg.channel = cfg'.channel ∧ cfg.style = cfg'.style ∧
        cfg.candidate_profile ≠ cfg'.candidate_profile ∧ cfg.language = cfg'.language) ∨
       (jt = jt' ∧ cfg.channel = cfg'.channel ∧ cfg.style = cfg'.style ∧
        cfg.candidate_profile = cfg'.candidate_profile ∧ cfg.language ≠ cfg'.language)) →
      cache_key jt cfg ≠ cache_key jt' cfg') := by
  constructor
  · rintro jt jt' cfg cfg' rfl rfl
    rfl
  · rintro jt jt' cfg cfg'
      (⟨h1, h2, h3, h4, h5⟩ | ⟨h1, h2, h3, h4, h5⟩ | ⟨h1, h2, h3, h4, h5⟩ |
        ⟨h1, h2, h3, h4, h5⟩ | ⟨h1, h2, h3, h4, h5⟩) hkey <;>
      unfold cache_key at hkey
    · rw [h2, h3, h4, h5] at hkey
      exact h1 (List.append_cancel_right hkey)
    · rw [h1, h3, h4, h5] at hkey
      have h := List.append_cancel_left hkey
      injection h with _ h
      exact h2 (List.append_cancel_right h)
    · rw [h1, h2, h4, h5] at hkey
      have h := List.append_cancel_left hkey
      injection h with _ h
      have h := List.append_cancel_left h
      injection h with _ h
      exact h3 (List.append_cancel_right h)
    · rw [h1, h2, h3, h5] at hkey
      have h := List.append_cancel_left hkey
      injection h with _ h
      have h := List.append_cancel_left h
      injection h with _ h
      have h := List.append_cancel_left h
      injection h with _ h
      exact h4 (List.append_cancel_right h)
    · rw [h1, h2, h3, h4] at hkey
      have h := List.append_cancel_left hkey
      injection h with _ h
      have h := List.append_cancel_left h
      injection h with _ h
      have h := List.append_cancel_left h
      injection h with _ h
      have h := List.append_cancel_left h
      injection h with _ h
      exact h5 h

/-- Witness for C5: two requests equal except for the channel field derive
different keys. -/
theorem C5_witness :
    cache_key (("t").toList) ⟨("a").toList, ("s").toList, ("p").toList, ("PL").toList⟩
      ≠ cache_key (("t").toList) ⟨("b").toList, ("s").toList, ("p").toList, ("PL").toList⟩ :=
  C5_cache_key_deterministic_and_injective.2 _ _ _ _
    (Or.inr (Or.inl ⟨rfl, by decide, rfl, rfl, rfl⟩))

/-- C8: `build_scoring_prompt` is total (it is a plain Lean function) and its
output depends on the question/answer lists only through the first
`min len(questions) len(answers)` pairs: surplus questions or answers are
silently dropped by the `zip` on `main.py` line 125. -/
theorem C8_scoring_prompt_truncates (jt cp : Str) (q a : List Str) :
    build_scoring_prompt jt cp q a
      = build_scoring_prompt jt cp (q.take (min q.length a.length))
          (a.take (min q.length a.length)) :=
  build_scoring_prompt_take jt cp q a

/-- C7: model-identifier resolution follows explicit argument > environment >
built-in default; a missing credential (explicit argument and environment both
absent or empty) is a fatal `GeminiError` raised during construction; a
truthy credential from either source makes construction succeed, the explicit
argument taking precedence. -/
theorem C7_config_resolution :
    (∀ (ak : Option Str) (m : Str) (env : Str → Option Str) (cfg : GeminiClientCfg),
      m ≠ [] → geminiInit ak (some m) env = .ok cfg → cfg.model = m) ∧
    (∀ (ak : Option Str) (env : Str → Option Str) (v : Str) (cfg : GeminiClientCfg),
      env modelEnvName = some v → geminiInit ak none env = .ok cfg → cfg.model = v) ∧
    (∀ (ak : Option Str) (env : Str → Option Str) (cfg : GeminiClientCfg),
      env modelEnvName = none → geminiInit ak none env = .ok cfg → cfg.model = defaultModel) ∧
    (∀ (m : Option Str) (env : Str → Option Str) (ak : Option Str),
      (env keyEnvName = none ∨ env keyEnvName = some []) →
      (ak = none ∨ ak = some []) → geminiInit ak m env = .error apiKeyErr) ∧
    (∀ (ak m : Option Str) (env : Str → Option Str) (s : Str),
      ak = some s → s ≠ [] →
      ∃ cfg, geminiInit ak m env = .ok cfg ∧ cfg.api_key = s) ∧
    (∀ (m : Option Str) (env : Str → Option Str) (s : Str) (ak : Option Str),
      env keyEnvName = some s → s ≠ [] → (ak = none ∨ ak = some []) →
      ∃ cfg, geminiInit ak m env = .ok cfg ∧ cfg.api_key = s) := by
  refine ⟨?_, ?_, ?_, ?_, ?_, ?_⟩
  · intro ak m env cfg hm h
    obtain ⟨s, _, _, hcfg⟩ := geminiInit_ok_shape ak (some m) env cfg h
    rw [hcfg]
    simp [pyOr, hm]
  · intro ak env v cfg hv h
    obtain ⟨s, _, _, hcfg⟩ := geminiInit_ok_shape ak none env cfg h
    rw [hcfg]
    simp [pyOr, hv]
  · intro ak env cfg hv h
    obtain ⟨s, _, _, hcfg⟩ := geminiInit_ok_shape ak none env cfg h
    rw [hcfg]
    simp [pyOr, hv]
  · intro m env ak henv hak
    apply geminiInit_error_of_key
    have hkey : pyOr ak (env keyEnvName) = env keyEnvName := by
      cases hak with
      | inl hak => rw [hak]; rfl
      | inr hak => rw [hak]; simp [pyOr]
    rw [hkey]
    exact henv
  · intro ak m env s hak hs
    refine ⟨⟨s, (pyOr m (some ((env modelEnvName).getD defaultModel))).getD defaultModel⟩,
      ?_, rfl⟩
    apply geminiInit_ok_of_key _ _ _ _ _ hs
    rw [hak]
    simp [pyOr, hs]
  · intro m env s ak henv hs hak
    refine ⟨⟨s, (pyOr m (some ((env modelEnvName).getD defaultModel))).getD defaultModel⟩,
      ?_, rfl⟩
    apply geminiInit_ok_of_key _ _ _ _ _ hs
    have hkey : pyOr ak (env keyEnvName) = env keyEnvName := by
      cases hak with
      | inl hak => rw [hak]; rfl
      | inr hak => rw [hak]; simp [pyOr]
    rw [hkey]
    exact henv

/-- Witness for C7: with no explicit key and an empty environment,
construction fails with the configuration error. -/
theorem C7_witness : geminiInit none none (fun _ => none) = .error apiKeyErr :=
  C7_config_resolution.2.2.2.1 none (fun _ => none) none (Or.inl rfl) (Or.inl rfl)

/-- Counterexample to C1: the claim quantifies over all three tasks, but the
test-questions endpoint performs no caching — handling the identical request
twice invokes the generative client twice, contradicting "at most once across
both calls". -/
theorem C1_counterexample :
    ¬ ((generate_test (constClient 0) ⟨("x").toList, ("y").toList⟩
        ((generate_test (constClient 0) ⟨("x").toList, ("y").toList⟩
          (⟨[], 0⟩ : OrchState Nat)).2)).2.calls ≤ 1) := by
  decide

/-- C1 (amended): only the job-post task is cached.  A successful `/generate`
run is idempotent: re-handling the same request from the resulting state
returns the identical structured results and leaves the state — the client
call count included — unchanged, the first run having invoked the client at
most once per channel; the test-questions and scoring endpoints invoke the
client on every call. -/
theorem C1_amended_generate_idempotent :
    (∀ (J : Type) (client : Str → Except Str J) (render : J → Str)
      (p : GenerateRequest) (st : OrchState J) (r : List (Str × (J × Str)))
      (st' : OrchState J),
      generate client render p st = (.ok r, st') →
      generate client render p st' = (.ok r, st') ∧
      st'.calls ≤ st.calls + p.channels.length) ∧
    (∀ (J : Type) (client : Str → Except Str J) (p : TestRequest) (st : OrchState J),
      (generate_test client p st).2.calls = st.calls + 1) ∧
    (∀ (J : Type) (client : Str → Except Str J) (p : TestAnswersRequest)
      (st : OrchState J),
      (score_test client p st).2.calls = st.calls + 1) := by
  refine ⟨?_, ?_, ?_⟩
  · intro J client render p st r st' h
    obtain ⟨_, hcalls, hrerun⟩ :=
      genLoop_rerun client render p.job_title p.channels [] st r st' h
    exact ⟨hrerun, hcalls⟩
  · intro J client p st
    unfold generate_test
    cases client (build_test_prompt p.job_title p.candidate_profile) <;> rfl
  · intro J client p st
    unfold score_test
    cases client (build_scoring_prompt p.job_title p.candidate_profile
      p.questions p.answers) <;> rfl

/-- Witness for the amended C1: a concrete one-channel request whose first run
succeeds; the second run returns the same result with no further client call. -/
theorem C1_witness :
    generate (constClient 0) noRender
        ⟨("t").toList, [⟨("c").toList, ("s").toList, ("p").toList, ("PL").toList⟩]⟩
        (⟨[((("t_c_s_p_PL").toList), 0)], 1⟩ : OrchState Nat)
      = (.ok [((("c").toList), (0, []))], ⟨[((("t_c_s_p_PL").toList), 0)], 1⟩) ∧
    (⟨[((("t_c_s_p_PL").toList), 0)], 1⟩ : OrchState Nat).calls ≤
      (⟨[], 0⟩ : OrchState Nat).calls + 1 :=
  C1_amended_generate_idempotent.1 Nat (constClient 0) noRender
    ⟨("t").toList, [⟨("c").toList, ("s").toList, ("p").toList, ("PL").toList⟩]⟩
    ⟨[], 0⟩ [((("c").toList), (0, []))] ⟨[((("t_c_s_p_PL").toList), 0)], 1⟩ rfl

/-- Counterexample to C2: a scoring request with two questions and one answer
is not rejected — `/score-test` performs no validation, invokes the client
once, and returns its result. -/
theorem C2_counterexample :
    (score_test (constClient 0)
      ⟨("t").toList, ("p").toList, [("q1").toList, ("q2").toList], [("a1").toList]⟩
      (⟨[], 0⟩ : OrchState Nat)).1 = .ok 0 ∧
    (score_test (constClient 0)
      ⟨("t").toList, ("p").toList, [("q1").toList, ("q2").toList], [("a1").toList]⟩
      (⟨[], 0⟩ : OrchState Nat)).2.calls = 1 :=
  ⟨rfl, rfl⟩

/-- C2 (amended): a scoring request with mismatched question/answer lengths is
not rejected: the endpoint always invokes the generative client exactly once,
on a prompt interleaving only the first `min len(questions) len(answers)`
pairs — surplus entries are silently ignored. -/
theorem C2_amended_no_validation {J : Type} (client : Str → Except Str J)
    (p : TestAnswersRequest) (st : OrchState J)
    (hlen : p.questions.length ≠ p.answers.length) :
    (score_test client p st).2.calls = st.calls + 1 ∧
    score_test client p st = score_test client
      ⟨p.job_title, p.candidate_profile,
        p.questions.take (min p.questions.length p.answers.length),
        p.answers.take (min p.questions.length p.answers.length)⟩ st := by
  constructor
  · unfold score_test
    cases client (build_scoring_prompt p.job_title p.candidate_profile
      p.questions p.answers) <;> rfl
  · unfold score_test
    rw [build_scoring_prompt_take p.job_title p.candidate_profile
      p.questions p.answers]

/-- Witness for the amended C2 at the two-questions/one-answer request. -/
theorem C2_witness :
    (score_test (constClient 0)
      ⟨("t").toList, ("p").toList, [("q1").toList, ("q2").toList], [("a1").toList]⟩
      (⟨[], 0⟩ : OrchState Nat)).2.calls = 0 + 1 ∧
    score_test (constClient 0)
      ⟨("t").toList, ("p").toList, [("q1").toList, ("q2").toList], [("a1").toList]⟩
      (⟨[], 0⟩ : OrchState Nat)
      = score_test (constClient 0)
        ⟨("t").toList, ("p").toList, [("q1").toList], [("a1").toList]⟩
        (⟨[], 0⟩ : OrchState Nat) :=
  C2_amended_no_validation (constClient 0)
    ⟨("t").toList, ("p").toList, [("q1").toList, ("q2").toList], [("a1").toList]⟩
    ⟨[], 0⟩ (by decide)

/-- C6: when the client fails on a cache miss, the request fails with a
502-style error carrying the failure message, nothing is stored in the cache
under the request's key, and a retry of the identical request attempts
generation again (a further client call). -/
theorem C6_failure_not_cached {J : Type} (client : Str → Except Str J)
    (render : J → Str) (jt : Str) (cfg : ChannelConfig) (st : OrchState J) (e : Str)
    (hmiss : lookupA (cache_key jt cfg) st.cache = none)
    (hfail : client (build_prompt jt cfg.channel cfg.style cfg.candidate_profile
      cfg.language) = .error e) :
    generate client render ⟨jt, [cfg]⟩ st
      = (.error ⟨502, gemErrDetail e⟩, ⟨st.cache, st.calls + 1⟩) ∧
    lookupA (cache_key jt cfg) (generate client render ⟨jt, [cfg]⟩ st).2.cache = none ∧
    (generate client render ⟨jt, [cfg]⟩ ⟨st.cache, st.calls + 1⟩).2.calls
      = st.calls + 2 := by
  have hstep : genStep client jt cfg st
      = (.error ⟨502, gemErrDetail e⟩, ⟨st.cache, st.calls + 1⟩) := by
    unfold genStep
    rw [hmiss, hfail]
  have h1 : generate client render ⟨jt, [cfg]⟩ st
      = (.error ⟨502, gemErrDetail e⟩, ⟨st.cache, st.calls + 1⟩) := by
    show genLoop client render jt [cfg] [] st = _
    simp only [genLoop]
    rw [hstep]
  have hmiss2 : lookupA (cache_key jt cfg)
      (⟨st.cache, st.calls + 1⟩ : OrchState J).cache = none := hmiss
  have hstep2 : genStep client jt cfg ⟨st.cache, st.calls + 1⟩
      = (.error ⟨502, gemErrDetail e⟩, ⟨st.cache, st.calls + 1 + 1⟩) := by
    unfold genStep
    rw [hmiss2, hfail]
  have h2 : generate client render ⟨jt, [cfg]⟩ (⟨st.cache, st.calls + 1⟩ : OrchState J)
      = (.error ⟨502, gemErrDetail e⟩, ⟨st.cache, st.calls + 1 + 1⟩) := by
    show genLoop client render jt [cfg] [] _ = _
    simp only [genLoop]
    rw [hstep2]
  refine ⟨h1, ?_, ?_⟩
  · rw [h1]
    exact hmiss
  · rw [h2]

/-- Witness for C6: a failing fake client on an empty cache. -/
theorem C6_witness :
    generate failClient noRender
        ⟨("t").toList, [⟨("c").toList, ("s").toList, ("p").toList, ("PL").toList⟩]⟩
        (⟨[], 0⟩ : OrchState Nat)
      = (.error ⟨502, gemErrDetail (("boom").toList)⟩, ⟨[], 1⟩) ∧
    lookupA (cache_key (("t").toList)
        ⟨("c").toList, ("s").toList, ("p").toList, ("PL").toList⟩)
      (generate failClient noRender
        ⟨("t").toList, [⟨("c").toList, ("s").toList, ("p").toList, ("PL").toList⟩]⟩
        (⟨[], 0⟩ : OrchState Nat)).2.cache = none ∧
    (generate failClient noRender
        ⟨("t").toList, [⟨("c").toList, ("s").toList, ("p").toList, ("PL").toList⟩]⟩
        (⟨[], 1⟩ : OrchState Nat)).2.calls = 2 :=
  C6_failure_not_cached failClient noRender (("t").toList)
    ⟨("c").toList, ("s").toList, ("p").toList, ("PL").toList⟩
    ⟨[], 0⟩ (("boom").toList) rfl rfl

/-- C9: in a batch whose channel list holds two or more configs with the same
channel name, the returned results mapping holds exactly one entry under that
name, and it is the entry computed for the last such config in list order —
earlier results under that name are overwritten. -/
theorem C9_duplicate_channel_last_wins {J : Type} (client : Str → Except Str J)
    (render : J → Str) (p : GenerateRequest) (st : OrchState J)
    (cs ds : List ChannelConfig) (cfg c1 : ChannelConfig)
    (r r1 : List (Str × (J × Str))) (st1 st2 stF : OrchState J) (v : J)
    (hchan : p.channels = cs ++ cfg :: ds)
    (hc1 : c1 ∈ cs) (hc1n : c1.channel = cfg.channel)
    (hds : ∀ d ∈ ds, d.channel ≠ cfg.channel)
    (hpre : genLoop client render p.job_title cs [] st = (.ok r1, st1))
    (hstep : genStep client p.job_title cfg st1 = (.ok v, st2))
    (hall : generate client render p st = (.ok r, stF)) :
    lookupA cfg.channel r = some (v, render v) ∧ countKey cfg.channel r = 1 := by
  have hgen : genLoop client render p.job_title (cs ++ cfg :: ds) [] st
      = (.ok r, stF) := by
    rw [← hchan]
    exact hall
  rw [genLoop_append] at hgen
  rw [hpre] at hgen
  simp only [genLoop] at hgen
  rw [hstep] at hgen
  simp only at hgen
  obtain ⟨hl, hc⟩ := genLoop_untouched client render p.job_title ds _ _ _ _
    cfg.channel hds hgen
  constructor
  · rw [hl, lookupA_insertOv_self]
  · rw [hc, countKey_insertOv_self]
    have hkeys := genLoop_keysOk client render p.job_title cs [] st r1 st1 hpre
      (fun n => Nat.zero_le 1) cfg.channel
    omega

/-- Witness for C9: two configs sharing channel name `c` with different
styles; the final mapping holds one entry for `c`, the second config's. -/
theorem C9_witness :
    lookupA (("c").toList)
        [((("c").toList), ((0 : Nat), ([] : Str)))] = some (0, []) ∧
    countKey (("c").toList) [((("c").toList), ((0 : Nat), ([] : Str)))] = 1 :=
  C9_duplicate_channel_last_wins (constClient 0) noRender
    ⟨("t").toList,
      [⟨("c").toList, ("s1").toList, ("p").toList, ("PL").toList⟩,
        ⟨("c").toList, ("s2").toList, ("p").toList, ("PL").toList⟩]⟩
    ⟨[], 0⟩
    [⟨("c").toList, ("s1").toList, ("p").toList, ("PL").toList⟩] []
    ⟨("c").toList, ("s2").toList, ("p").toList, ("PL").toList⟩
    ⟨("c").toList, ("s1").toList, ("p").toList, ("PL").toList⟩
    [((("c").toList), ((0 : Nat), ([] : Str)))]
    [((("c").toList), ((0 : Nat), ([] : Str)))]
    ⟨[((("t_c_s1_p_PL").toList), 0)], 1⟩
    ⟨[((("t_c_s1_p_PL").toList), 0), ((("t_c_s2_p_PL").toList), 0)], 2⟩
    ⟨[((("t_c_s1_p_PL").toList), 0), ((("t_c_s2_p_PL").toList), 0)], 2⟩
    0 rfl (List.mem_cons_self _ _) rfl (fun d hd => absurd hd (List.not_mem_nil d))
    rfl rfl rfl
